import Mathlib

/-!
Shallow embedding of the node-ID encoding scheme of the repository
(file report/id.go) together with the parts of Go's standard net
package that it calls (net.ParseIP and net.IP.IsLoopback).

Go strings are modelled as lists of characters; a Go function that can
return nil (an absent IP) is modelled with Option; the one function that
panics is modelled with Except, the error carrying the argument that the
Go code would format into the panic message.  Both delimiters of id.go
are one-character strings, so strings.SplitN with those separators is
modelled by splitting at a character.
-/

/-- Characters of a string literal, the model of a Go string value. -/
def str (s : String) : List Char := s.data

/-- TheInternet is used as a node ID to indicate a remote IP. -/
def TheInternet : List Char := str "theinternet"

/-- ScopeDelim is a general-purpose delimiter used within node IDs to
separate different contextual scopes (the one-character string ";"). -/
def ScopeDelim : Char := ';'

/-- EdgeDelim separates two node IDs in keys that represent edges
(the one-character string "|"). -/
def EdgeDelim : Char := '|'

/-- Model of Go strings.SplitN s sep 2 for a one-character sep:
some (before, after) splits at the first occurrence of the separator;
none corresponds to Go returning a single field (length 1, not 2),
which happens exactly when the separator does not occur in s. -/
def splitOnFirst (d : Char) : List Char → Option (List Char × List Char)
  | [] => none
  | c :: cs =>
    if c = d then some ([], cs)
    else
      match splitOnFirst d cs with
      | none => none
      | some (a, b) => some (c :: a, b)

/-- Model of Go strings.SplitN s sep 3 for a one-character sep:
some (f0, f1, f2) when the separator occurs at least twice (Go returns
3 fields), none otherwise (Go returns fewer than 3 fields). -/
def splitN3 (d : Char) (s : List Char) : Option (List Char × List Char × List Char) :=
  match splitOnFirst d s with
  | none => none
  | some (f0, rest) =>
    match splitOnFirst d rest with
    | none => none
    | some (f1, f2) => some (f0, f1, f2)

/-! ### Model of the net package functions used by id.go -/

/-- Go net's dtoi decimal scanner loop: accumulates leading decimal
digits into n; fails on overflow past 0xFFFFFF; seen records whether at
least one digit was consumed.  Returns (value, rest of string, ok). -/
def dtoiLoop : List Char → Nat → Bool → Nat × List Char × Bool
  | [], n, seen => (n, [], seen)
  | c :: cs, n, seen =>
    if '0' ≤ c ∧ c ≤ '9' then
      let n2 := n * 10 + (c.toNat - Char.toNat '0')
      if 0xFFFFFF ≤ n2 then (0, c :: cs, false)
      else dtoiLoop cs n2 true
    else (n, c :: cs, seen)

/-- Go net's dtoi: decimal digits at the front of s; ok is false when
there is no digit or the value overflows. -/
def dtoi (s : List Char) : Nat × List Char × Bool :=
  dtoiLoop s 0 false

/-- Value of one hexadecimal digit character, as accepted by Go net's
xtoi (0-9, a-f, A-F). -/
def hexDigitVal (c : Char) : Option Nat :=
  if '0' ≤ c ∧ c ≤ '9' then some (c.toNat - Char.toNat '0')
  else if 'a' ≤ c ∧ c ≤ 'f' then some (c.toNat - Char.toNat 'a' + 10)
  else if 'A' ≤ c ∧ c ≤ 'F' then some (c.toNat - Char.toNat 'A' + 10)
  else none

/-- Go net's xtoi hexadecimal scanner loop, analogous to dtoiLoop. -/
def xtoiLoop : List Char → Nat → Bool → Nat × List Char × Bool
  | [], n, seen => (n, [], seen)
  | c :: cs, n, seen =>
    match hexDigitVal c with
    | some v =>
      let n2 := n * 16 + v
      if 0xFFFFFF ≤ n2 then (0, c :: cs, false)
      else xtoiLoop cs n2 true
    | none => (n, c :: cs, seen)

/-- Go net's xtoi: hexadecimal digits at the front of s. -/
def xtoi (s : List Char) : Nat × List Char × Bool :=
  xtoiLoop s 0 false

/-- The 12-byte v4-in-v6 marker that Go's net.IPv4 constructor places
before the four IPv4 octets. -/
def v4Tag : List Nat := [0, 0, 0, 0, 0, 0, 0, 0, 0, 0, 0xff, 0xff]

/-- Go net.IPv4: the 16-byte IP value holding an IPv4 address. -/
def IPv4 (a b c d : Nat) : List Nat := v4Tag ++ [a, b, c, d]

/-- One dotted-decimal octet of parseIPv4: a run of decimal digits with
value at most 0xFF, mirroring dtoi followed by the n > 0xFF check. -/
def parseOctet (s : List Char) : Option (Nat × List Char) :=
  match dtoi s with
  | (n, rest, ok) => if ok ∧ n ≤ 0xFF then some (n, rest) else none

/-- Remaining k octets of parseIPv4, each preceded by a dot; the whole
string must be consumed. -/
def parseIPv4Rest : Nat → List Char → Option (List Nat)
  | 0, s => if s = [] then some [] else none
  | k + 1, s =>
    match s with
    | '.' :: s2 =>
      match parseOctet s2 with
      | none => none
      | some (n, rest) =>
        match parseIPv4Rest k rest with
        | none => none
        | some bs => some (n :: bs)
    | _ => none

/-- Go net's parseIPv4: four dot-separated decimal octets consuming the
whole string, returned in the 16-byte form produced by net.IPv4. -/
def parseIPv4 (s : List Char) : Option (List Nat) :=
  match parseOctet s with
  | none => none
  | some (n, rest) =>
    match parseIPv4Rest 3 rest with
    | none => none
    | some bs => some (IPv4 n (bs.headD 0) ((bs.drop 1).headD 0) ((bs.drop 2).headD 0))

/-- Main loop of Go net's parseIPv6 (zone parsing disabled, as when it
is called from net.ParseIP).  acc holds the bytes parsed so far (Go's i
is acc.length), ell the position of the "::" ellipsis if one was seen,
and the fuel counts the at most eight remaining 16-bit groups.  Returns
the accumulated bytes and ellipsis position, with the requirement that
the entire string was consumed already enforced; none on a parse error. -/
def parseIPv6Loop : Nat → List Nat → Option Nat → List Char → Option (List Nat × Option Nat)
  | 0, acc, ell, s => if s = [] then some (acc, ell) else none
  | fuel + 1, acc, ell, s =>
    match xtoi s with
    | (n, rest, ok) =>
      if ok = false ∨ 0xFFFF < n then none
      else
        match rest with
        | '.' :: _ =>
          if ell = none ∧ acc.length ≠ 12 then none
          else if 16 < acc.length + 4 then none
          else
            match parseIPv4 s with
            | none => none
            | some p4 => some (acc ++ p4.drop 12, ell)
        | _ =>
          let acc2 := acc ++ [n / 256, n % 256]
          match rest with
          | [] => some (acc2, ell)
          | c :: rest2 =>
            if c ≠ ':' ∨ rest2 = [] then none
            else
              match rest2 with
              | ':' :: rest3 =>
                if ell ≠ none then none
                else if rest3 = [] then some (acc2, some acc2.length)
                else parseIPv6Loop fuel acc2 (some acc2.length) rest3
              | _ => parseIPv6Loop fuel acc2 ell rest2

/-- Ellipsis expansion at the end of Go net's parseIPv6: if fewer than
16 bytes were parsed, insert zero bytes at the ellipsis position; a full
16 bytes together with an ellipsis is an error. -/
def parseIPv6Post (r : Option (List Nat × Option Nat)) : Option (List Nat) :=
  match r with
  | none => none
  | some (acc, ell) =>
    if acc.length < 16 then
      match ell with
      | none => none
      | some e => some (acc.take e ++ List.replicate (16 - acc.length) 0 ++ acc.drop e)
    else
      match ell with
      | some _ => none
      | none => some acc

/-- Go net's parseIPv6 (without zone): handles a leading "::", then runs
the group loop and expands the ellipsis. -/
def parseIPv6 (s : List Char) : Option (List Nat) :=
  match s with
  | ':' :: ':' :: rest =>
    if rest = [] then some (List.replicate 16 0)
    else parseIPv6Post (parseIPv6Loop 8 [] (some 0) rest)
  | _ => parseIPv6Post (parseIPv6Loop 8 [] none s)

/-- Go net.ParseIP: scan for the first dot or colon; a dot selects the
IPv4 parser, a colon the IPv6 parser, neither yields nil. -/
def parseIP (s : List Char) : Option (List Nat) :=
  match s.find? (fun c => c == '.' || c == ':') with
  | some c => if c = '.' then parseIPv4 s else parseIPv6 s
  | none => none

/-- Go net.IP.To4: a 4-byte IP is returned as is; a 16-byte IP carrying
the v4-in-v6 marker is shortened to its last four bytes. -/
def To4 (ip : List Nat) : Option (List Nat) :=
  if ip.length = 4 then some ip
  else if ip.length = 16 ∧ ip.take 12 = v4Tag then some (ip.drop 12)
  else none

/-- Go net.IPv6loopback, the 16-byte ::1. -/
def IPv6loopback : List Nat := [0, 0, 0, 0, 0, 0, 0, 0, 0, 0, 0, 0, 0, 0, 0, 1]

/-- Go net.IP.IsLoopback: an IPv4 address is loopback when its first
octet is 127; otherwise the IP is compared with ::1. -/
def ipIsLoopback (ip : List Nat) : Bool :=
  match To4 ip with
  | some ip4 => ip4.headD 0 == 127
  | none => ip == IPv6loopback

/-! ### The functions of report/id.go -/

/-- isLoopback of id.go: net.ParseIP then IsLoopback; a string that does
not parse as an IP is not loopback. -/
def isLoopback (address : List Char) : Bool :=
  match parseIP address with
  | some ip => ipIsLoopback ip
  | none => false

/-- MakeAdjacencyID produces an adjacency ID from a node id. -/
def MakeAdjacencyID (srcNodeID : List Char) : List Char :=
  '>' :: srcNodeID

/-- ParseAdjacencyID produces a node ID from an adjacency ID: it strips
the ">" marker when present, failing otherwise. -/
def ParseAdjacencyID (adjacencyID : List Char) : List Char × Bool :=
  match adjacencyID with
  | [] => ([], false)
  | c :: rest => if c = '>' then (rest, true) else ([], false)

/-- MakeEdgeID produces an edge ID from composite parts. -/
def MakeEdgeID (srcNodeID dstNodeID : List Char) : List Char :=
  srcNodeID ++ EdgeDelim :: dstNodeID

/-- ParseEdgeID splits an edge ID to its composite parts at the first
edge delimiter, failing when the delimiter is absent. -/
def ParseEdgeID (edgeID : List Char) : List Char × List Char × Bool :=
  match splitOnFirst EdgeDelim edgeID with
  | none => ([], [], false)
  | some (src, dst) => (src, dst, true)

/-- MakeAddressNodeID produces an address node ID from its composite
parts; only loopback addresses get scoped by hostID. -/
def MakeAddressNodeID (hostID address : List Char) : List Char :=
  (if isLoopback address then hostID else []) ++ ScopeDelim :: address

/-- MakeEndpointNodeID produces an endpoint node ID from its composite
parts. -/
def MakeEndpointNodeID (hostID address port : List Char) : List Char :=
  MakeAddressNodeID hostID address ++ ScopeDelim :: port

/-- MakeProcessNodeID produces a process node ID from its composite
parts. -/
def MakeProcessNodeID (hostID pid : List Char) : List Char :=
  hostID ++ ScopeDelim :: pid

/-- MakeHostNodeID produces a host node ID by suffixing the host marker. -/
def MakeHostNodeID (hostID : List Char) : List Char :=
  hostID ++ ScopeDelim :: str "<host>"

/-- MakeContainerNodeID produces a container node ID from its composite
parts. -/
def MakeContainerNodeID (hostID containerID : List Char) : List Char :=
  hostID ++ ScopeDelim :: containerID

/-- ParseNodeID produces the host ID and remainder from a node ID. -/
def ParseNodeID (nodeID : List Char) : List Char × List Char × Bool :=
  match splitOnFirst ScopeDelim nodeID with
  | none => ([], [], false)
  | some (h, rest) => (h, rest, true)

/-- Model of Go strings.Join with a one-character separator. -/
def joinWith (d : Char) : List (List Char) → List Char
  | [] => []
  | [x] => x
  | x :: y :: ys => x ++ d :: joinWith d (y :: ys)

/-- MakePseudoNodeID produces a pseudo node ID from its composite parts. -/
def MakePseudoNodeID (parts : List (List Char)) : List Char :=
  joinWith ScopeDelim (str "pseudo" :: parts)

/-- EndpointIDAddresser converts an endpoint node ID to an IP: it needs
exactly three scope-delimited fields and parses field index 1. -/
def EndpointIDAddresser (id : List Char) : Option (List Nat) :=
  match splitN3 ScopeDelim id with
  | none => none
  | some (_, f1, _) => parseIP f1

/-- AddressIDAddresser converts an address node ID to an IP: it needs
exactly two scope-delimited fields and parses field index 1. -/
def AddressIDAddresser (id : List Char) : Option (List Nat) :=
  match splitOnFirst ScopeDelim id with
  | none => none
  | some (_, f1) => parseIP f1

/-- PanicIDAddresser panics whenever it is called; the panic is modelled
as an Except.error carrying the argument that Go formats into the panic
message, so that it can never produce an ok value. -/
def PanicIDAddresser (id : List Char) : Except (List Char) (Option (List Nat)) :=
  Except.error (str "PanicIDAddresser called on " ++ id)

/-! ### Lemmas about splitting -/

/-- When the delimiter does not occur, splitting finds nothing (Go's
SplitN returns a single field). -/
theorem splitOnFirst_eq_none {d : Char} {s : List Char} (h : d ∉ s) :
    splitOnFirst d s = none := by
  induction s with
  | nil => rfl
  | cons c cs ih =>
    rw [List.mem_cons, not_or] at h
    have hcd : ¬ c = d := fun hc => h.1 hc.symm
    simp [splitOnFirst, hcd, ih h.2]

/-- Splitting a string assembled around the first delimiter recovers the
two parts. -/
theorem splitOnFirst_append {d : Char} {a : List Char} (b : List Char) (h : d ∉ a) :
    splitOnFirst d (a ++ d :: b) = some (a, b) := by
  induction a with
  | nil => simp [splitOnFirst]
  | cons c cs ih =>
    rw [List.mem_cons, not_or] at h
    have hcd : ¬ c = d := fun hc => h.1 hc.symm
    simp [splitOnFirst, hcd, ih h.2]

/-- A successful split decomposes the string at the first occurrence of
the delimiter: the left part is delimiter-free. -/
theorem splitOnFirst_sound {d : Char} {s a b : List Char}
    (h : splitOnFirst d s = some (a, b)) : s = a ++ d :: b ∧ d ∉ a := by
  induction s generalizing a b with
  | nil => simp [splitOnFirst] at h
  | cons c cs ih =>
    by_cases hcd : c = d
    · subst hcd
      simp [splitOnFirst] at h
      obtain ⟨ha, hb⟩ := h
      subst ha; subst hb
      simp
    · have hstep : splitOnFirst d (c :: cs) =
          match splitOnFirst d cs with
          | none => none
          | some (x, y) => some (c :: x, y) := by
        simp [splitOnFirst, hcd]
      rw [hstep] at h
      cases hsp : splitOnFirst d cs with
      | none => rw [hsp] at h; simp at h
      | some p =>
        obtain ⟨x, y⟩ := p
        rw [hsp] at h
        simp only [Option.some.injEq, Prod.mk.injEq] at h
        obtain ⟨ha, hb⟩ := h
        obtain ⟨hcs, hnot⟩ := ih hsp
        subst ha; subst hb; subst hcs
        refine ⟨by simp, ?_⟩
        rw [List.mem_cons, not_or]
        exact ⟨fun hdc => hcd hdc.symm, hnot⟩

/-- ParseNodeID inverts any constructor that joins a delimiter-free
hostID to a remainder with the scope delimiter. -/
theorem ParseNodeID_make {h r : List Char} (hh : ScopeDelim ∉ h) :
    ParseNodeID (h ++ ScopeDelim :: r) = (h, r, true) := by
  simp [ParseNodeID, splitOnFirst_append r hh]

/-- Fewer than two delimiters in the string means SplitN cannot produce
three fields. -/
theorem splitN3_eq_none_of_count {d : Char} {s : List Char}
    (h : s.count d < 2) : splitN3 d s = none := by
  cases hsp : splitOnFirst d s with
  | none => simp [splitN3, hsp]
  | some p =>
    obtain ⟨f0, rest⟩ := p
    obtain ⟨heq, hnot⟩ := splitOnFirst_sound hsp
    subst heq
    have h0 : f0.count d = 0 := List.count_eq_zero.mpr hnot
    rw [List.count_append, h0, List.count_cons_self] at h
    have hrest : d ∉ rest := by
      rw [← List.count_eq_zero]
      omega
    simp [splitN3, hsp, splitOnFirst_eq_none hrest]

/-! ### The claims -/

/-- C1: for hostID, pid and containerID free of both delimiters,
ParseNodeID inverts MakeProcessNodeID and MakeContainerNodeID. -/
theorem C1_make_parse_roundtrip (hostID pid containerID : List Char)
    (hh : ScopeDelim ∉ hostID ∧ EdgeDelim ∉ hostID)
    (hp : ScopeDelim ∉ pid ∧ EdgeDelim ∉ pid)
    (hc : ScopeDelim ∉ containerID ∧ EdgeDelim ∉ containerID) :
    ParseNodeID (MakeProcessNodeID hostID pid) = (hostID, pid, true) ∧
    ParseNodeID (MakeContainerNodeID hostID containerID) = (hostID, containerID, true) :=
  ⟨ParseNodeID_make hh.1, ParseNodeID_make hh.1⟩

/-- Witness for C1 at concrete delimiter-free inputs. -/
theorem C1_make_parse_roundtrip_witness :
    ParseNodeID (MakeProcessNodeID (str "host1") (str "4242")) =
      (str "host1", str "4242", true) ∧
    ParseNodeID (MakeContainerNodeID (str "host1") (str "c0ffee")) =
      (str "host1", str "c0ffee", true) :=
  C1_make_parse_roundtrip (str "host1") (str "4242") (str "c0ffee")
    (by decide) (by decide) (by decide)

/-- C2: MakeAddressNodeID prepends the hostID exactly when the address
parses as a loopback IP literal; the ID for 8.8.8.8 is host independent,
the IDs for 127.0.0.1 under distinct delimiter-free hosts differ, and an
address that is not an IP literal is never host-scoped. -/
theorem C2_loopback_scoping :
    (∀ hostID address, MakeAddressNodeID hostID address =
      (match parseIP address with
        | some ip => if ipIsLoopback ip then hostID else []
        | none => []) ++ ScopeDelim :: address) ∧
    (∀ h1 h2, MakeAddressNodeID h1 (str "8.8.8.8") = MakeAddressNodeID h2 (str "8.8.8.8")) ∧
    (∀ h1 h2, h1 ≠ h2 →
      (ScopeDelim ∉ h1 ∧ EdgeDelim ∉ h1) → (ScopeDelim ∉ h2 ∧ EdgeDelim ∉ h2) →
      MakeAddressNodeID h1 (str "127.0.0.1") ≠ MakeAddressNodeID h2 (str "127.0.0.1")) ∧
    (∀ hostID address, parseIP address = none →
      MakeAddressNodeID hostID address = ScopeDelim :: address) := by
  refine ⟨?_, ?_, ?_, ?_⟩
  · intro hostID address
    unfold MakeAddressNodeID isLoopback
    cases hp : parseIP address <;> simp
  · intro h1 h2
    simp [MakeAddressNodeID, show isLoopback (str "8.8.8.8") = false from by decide]
  · intro h1 h2 hne _ _ heq
    apply hne
    rw [MakeAddressNodeID, MakeAddressNodeID,
      show isLoopback (str "127.0.0.1") = true from by decide] at heq
    simp only [if_true] at heq
    exact List.append_cancel_right heq
  · intro hostID address hnone
    simp [MakeAddressNodeID, isLoopback, hnone]

/-- Witness for C2 at concrete inputs: distinct hosts keep distinct
loopback IDs, and a non-IP address is not host-scoped. -/
theorem C2_loopback_scoping_witness :
    MakeAddressNodeID (str "hostA") (str "127.0.0.1") ≠
      MakeAddressNodeID (str "hostB") (str "127.0.0.1") ∧
    MakeAddressNodeID (str "hostA") (str "example.com") =
      ScopeDelim :: str "example.com" :=
  ⟨C2_loopback_scoping.2.2.1 (str "hostA") (str "hostB")
      (by decide) (by decide) (by decide),
   C2_loopback_scoping.2.2.2 (str "hostA") (str "example.com") (by decide)⟩

/-- C3: EndpointIDAddresser yields an IP exactly on three scope fields
whose field index 1 is an IP literal, recovering 10.0.0.1 from an
endpoint node ID; AddressIDAddresser needs two fields and fails on a
one-field string. -/
theorem C3_id_addressers :
    (∀ id, id.count ScopeDelim < 2 → EndpointIDAddresser id = none) ∧
    (∀ id f0 f1 f2, splitN3 ScopeDelim id = some (f0, f1, f2) →
      EndpointIDAddresser id = parseIP f1) ∧
    (∀ hostID, EndpointIDAddresser
      (MakeEndpointNodeID hostID (str "10.0.0.1") (str "80")) = some (IPv4 10 0 0 1)) ∧
    (∀ id, ScopeDelim ∉ id → AddressIDAddresser id = none) ∧
    (∀ id f0 f1, splitOnFirst ScopeDelim id = some (f0, f1) →
      AddressIDAddresser id = parseIP f1) := by
  refine ⟨?_, ?_, ?_, ?_, ?_⟩
  · intro id h
    simp [EndpointIDAddresser, splitN3_eq_none_of_count h]
  · intro id f0 f1 f2 h
    simp [EndpointIDAddresser, h]
  · intro hostID
    rw [MakeEndpointNodeID, MakeAddressNodeID,
      show isLoopback (str "10.0.0.1") = false from by decide,
      if_neg (by decide : ¬ (false = true))]
    decide
  · intro id h
    simp [AddressIDAddresser, splitOnFirst_eq_none h]
  · intro id f0 f1 h
    simp [AddressIDAddresser, h]

/-- Witness for C3: a delimiter-free string defeats both addressers, and
concrete well-formed IDs are taken apart as stated. -/
theorem C3_id_addressers_witness :
    EndpointIDAddresser (str "nodelimiters") = none ∧
    AddressIDAddresser (str "nodelimiters") = none ∧
    EndpointIDAddresser (str "h;10.0.0.1;80") = parseIP (str "10.0.0.1") ∧
    AddressIDAddresser (str "h;1.2.3.4") = parseIP (str "1.2.3.4") :=
  ⟨C3_id_addressers.1 (str "nodelimiters") (by decide),
   C3_id_addressers.2.2.2.1 (str "nodelimiters") (by decide),
   C3_id_addressers.2.1 (str "h;10.0.0.1;80")
     (str "h") (str "10.0.0.1") (str "80") (by decide),
   C3_id_addressers.2.2.2.2 (str "h;1.2.3.4") (str "h") (str "1.2.3.4") (by decide)⟩

/-- C4: for edge-delimiter-free node IDs, ParseEdgeID inverts MakeEdgeID,
and MakeEdgeID is order sensitive on distinct arguments. -/
theorem C4_edge_roundtrip (a b : List Char)
    (ha : EdgeDelim ∉ a) (hb : EdgeDelim ∉ b) :
    ParseEdgeID (MakeEdgeID a b) = (a, b, true) ∧
    (a ≠ b → MakeEdgeID a b ≠ MakeEdgeID b a) := by
  have hab : ParseEdgeID (MakeEdgeID a b) = (a, b, true) := by
    simp [ParseEdgeID, MakeEdgeID, splitOnFirst_append b ha]
  have hba : ParseEdgeID (MakeEdgeID b a) = (b, a, true) := by
    simp [ParseEdgeID, MakeEdgeID, splitOnFirst_append a hb]
  refine ⟨hab, fun hne heq => hne ?_⟩
  have hpar := hab.symm.trans ((congrArg ParseEdgeID heq).trans hba)
  simp only [Prod.mk.injEq] at hpar
  exact hpar.1

/-- Witness for C4 on the two node IDs of the spec's edge scenario. -/
theorem C4_edge_roundtrip_witness :
    ParseEdgeID (MakeEdgeID (str "h1;10.0.0.1") (str "h2;10.0.0.2")) =
      (str "h1;10.0.0.1", str "h2;10.0.0.2", true) ∧
    MakeEdgeID (str "h1;10.0.0.1") (str "h2;10.0.0.2") ≠
      MakeEdgeID (str "h2;10.0.0.2") (str "h1;10.0.0.1") :=
  ⟨(C4_edge_roundtrip (str "h1;10.0.0.1") (str "h2;10.0.0.2")
      (by decide) (by decide)).1,
   (C4_edge_roundtrip (str "h1;10.0.0.1") (str "h2;10.0.0.2")
      (by decide) (by decide)).2 (by decide)⟩

/-- C5: ParseAdjacencyID inverts MakeAdjacencyID on every string, and
fails with an empty result on any string not starting with the marker. -/
theorem C5_adjacency_roundtrip :
    (∀ x, ParseAdjacencyID (MakeAdjacencyID x) = (x, true)) ∧
    (∀ y, y.head? ≠ some '>' → ParseAdjacencyID y = ([], false)) := by
  constructor
  · intro x
    simp [ParseAdjacencyID, MakeAdjacencyID]
  · intro y hy
    cases y with
    | nil => rfl
    | cons c rest =>
      have hc : ¬ c = '>' := fun h => hy (by simp [h])
      simp [ParseAdjacencyID, hc]

/-- Witness for C5: the marker round-trips on a concrete node ID, and a
concrete unmarked string is rejected. -/
theorem C5_adjacency_roundtrip_witness :
    ParseAdjacencyID (MakeAdjacencyID (str "h;x")) = (str "h;x", true) ∧
    ParseAdjacencyID (str "h;x") = ([], false) :=
  ⟨C5_adjacency_roundtrip.1 (str "h;x"),
   C5_adjacency_roundtrip.2 (str "h;x") (by decide)⟩

/-- C6: each parser fails cleanly, with empty components and a false
flag, on any input missing its delimiter or marker, the empty string
included; the parsers are total Lean functions, so no input panics. -/
theorem C6_parsers_fail_cleanly :
    (∀ s, ScopeDelim ∉ s → ParseNodeID s = ([], [], false)) ∧
    (∀ s, EdgeDelim ∉ s → ParseEdgeID s = ([], [], false)) ∧
    (∀ s, s.head? ≠ some '>' → ParseAdjacencyID s = ([], false)) ∧
    ParseNodeID [] = ([], [], false) ∧
    ParseEdgeID [] = ([], [], false) ∧
    ParseAdjacencyID [] = ([], false) := by
  refine ⟨?_, ?_, ?_, rfl, rfl, rfl⟩
  · intro s h
    simp [ParseNodeID, splitOnFirst_eq_none h]
  · intro s h
    simp [ParseEdgeID, splitOnFirst_eq_none h]
  · intro s h
    cases s with
    | nil => rfl
    | cons c rest =>
      have hc : ¬ c = '>' := fun heq => h (by simp [heq])
      simp [ParseAdjacencyID, hc]

/-- Witness for C6 on one concrete delimiter-free string. -/
theorem C6_parsers_fail_cleanly_witness :
    ParseNodeID (str "plainstring") = ([], [], false) ∧
    ParseEdgeID (str "plainstring") = ([], [], false) ∧
    ParseAdjacencyID (str "plainstring") = ([], false) :=
  ⟨C6_parsers_fail_cleanly.1 (str "plainstring") (by decide),
   C6_parsers_fail_cleanly.2.1 (str "plainstring") (by decide),
   C6_parsers_fail_cleanly.2.2.1 (str "plainstring") (by decide)⟩

/-- C7: MakeHostNodeID joins the host ID to the host marker with the
scope delimiter; concretely probe-42 maps to probe-42;<host>, which
ParseNodeID takes apart again. -/
theorem C7_host_node_id :
    (∀ hostID, MakeHostNodeID hostID = hostID ++ ScopeDelim :: str "<host>") ∧
    MakeHostNodeID (str "probe-42") = str "probe-42;<host>" ∧
    ParseNodeID (str "probe-42;<host>") = (str "probe-42", str "<host>", true) :=
  ⟨fun _ => rfl, by decide, by decide⟩

/-- C8: PanicIDAddresser fails fatally on every input: it always yields
the modelled panic and never an ok value. -/
theorem C8_panic_id_addresser :
    ∀ id, (∃ msg, PanicIDAddresser id = Except.error msg) ∧
      ∀ r, PanicIDAddresser id ≠ Except.ok r := by
  intro id
  refine ⟨⟨str "PanicIDAddresser called on " ++ id, rfl⟩, ?_⟩
  intro r h
  simp [PanicIDAddresser] at h

/-- C9: process and container node IDs built from the same parts are the
identical string; the node kind is not encoded in the ID. -/
theorem C9_process_container_collide :
    ∀ hostID x, MakeProcessNodeID hostID x = MakeContainerNodeID hostID x :=
  fun _ _ => rfl

/-- C10: with no parts MakePseudoNodeID is the bare pseudo marker, which
contains no scope delimiter and fails to parse; with at least one part
the ID contains the delimiter and ParseNodeID succeeds with hostID
pseudo. -/
theorem C10_pseudo_node_id :
    MakePseudoNodeID [] = str "pseudo" ∧
    ScopeDelim ∉ MakePseudoNodeID [] ∧
    ParseNodeID (MakePseudoNodeID []) = ([], [], false) ∧
    (∀ p ps, ScopeDelim ∈ MakePseudoNodeID (p :: ps) ∧
      ∃ rest, ParseNodeID (MakePseudoNodeID (p :: ps)) = (str "pseudo", rest, true)) := by
  refine ⟨rfl, by decide, by decide, ?_⟩
  intro p ps
  have hstep : MakePseudoNodeID (p :: ps) =
      str "pseudo" ++ ScopeDelim :: joinWith ScopeDelim (p :: ps) := rfl
  constructor
  · rw [hstep]
    simp
  · exact ⟨joinWith ScopeDelim (p :: ps),
      by rw [hstep]; exact ParseNodeID_make (by decide)⟩
